import Mathlib

/-!
Verification of the SSRF guard shared by the scraping scripts
(`ads/scripts/fetch_page.py`, `ads/scripts/analyze_landing.py`,
`ads/scripts/capture_screenshot.py`, `seo/scripts/analyze_visual.py`,
`seo/scripts/capture_screenshot.py`).  The guard code is byte-identical
across the five files; every definition below is a shallow embedding of
that code.

Embedding conventions:
* Python strings are Lean `String`; character-level work is done on
  `List Char` (the scripts only ever handle ASCII input).
* The collaborating DNS resolver (`socket.getaddrinfo`) is a parameter of
  type `Resolver`; a `gaierror` is `Except.error msg` and a successful
  lookup is `Except.ok` with the list of resolved address strings (the
  scripts read only `sockaddr[0]` of each tuple).
* The collaborating HTTP client is a parameter `String → HttpResponse`
  giving the response for a requested URL; transport exceptions and
  timeouts are outside the pure model.
* The semantics of the Python standard library functions the scripts call
  (`ipaddress.ip_address` with its classification properties, and
  `urllib.parse.urlparse` / `urljoin`) are embedded from CPython.
  Paths on which CPython raises inside `urlsplit` (malformed bracketed
  hosts) are not modelled; no claim exercises them.
-/

/-- The collaborator DNS resolver: hostname to resolved address strings,
or a resolution failure message. -/
abbrev Resolver := String → Except String (List String)

/-! ## Character and list helpers mirroring Python string methods -/

/-- The character set stripped by Python `str.strip()` for ASCII text. -/
def isPyWhitespace (c : Char) : Bool :=
  c == ' ' || c == '\t' || c == '\n' || c == '\r' || c == '\x0b' || c == '\x0c'

/-- Python `str.strip()` on a character list. -/
def pyStripL (l : List Char) : List Char :=
  ((l.dropWhile isPyWhitespace).reverse.dropWhile isPyWhitespace).reverse

/-- Python `str.strip()`. -/
def pyStrip (s : String) : String :=
  (pyStripL s.toList).asString

/-- Split at the first occurrence of `c`: Python `partition(c)` giving the
parts before and after the separator (whole list and `[]` when absent). -/
def splitFirst (c : Char) (l : List Char) : List Char × List Char :=
  match l.findIdx? (fun a => a == c) with
  | some i => (l.take i, l.drop (i + 1))
  | none => (l, [])

/-- The part after the last occurrence of `c`: Python `rpartition(c)[2]`
(the whole list when `c` is absent). -/
def afterLast (c : Char) (l : List Char) : List Char :=
  match l.reverse.findIdx? (fun a => a == c) with
  | some i => (l.reverse.take i).reverse
  | none => l

/-- Value of a decimal digit string (assumes digits only). -/
def decDigitsToNat (l : List Char) : Nat :=
  l.foldl (fun acc c => acc * 10 + (c.toNat - '0'.toNat)) 0

/-- Membership in the hex digit set used by `IPv6Address`. -/
def isHexDigitChar (c : Char) : Bool :=
  c.isDigit || (decide ('a' ≤ c) && decide (c ≤ 'f')) || (decide ('A' ≤ c) && decide (c ≤ 'F'))

/-- Value of one hex digit. -/
def hexDigitVal (c : Char) : Nat :=
  if c.isDigit then c.toNat - '0'.toNat
  else if decide ('a' ≤ c) && decide (c ≤ 'f') then c.toNat - 'a'.toNat + 10
  else c.toNat - 'A'.toNat + 10

/-- Value of a hex digit string (assumes hex digits only). -/
def hexDigitsToNat (l : List Char) : Nat :=
  l.foldl (fun acc c => acc * 16 + hexDigitVal c) 0

/-! ## The address model: CPython `ipaddress` classification -/

/-- A parsed IP address: the integer form held by `IPv4Address` or
`IPv6Address`. -/
inductive IPAddr where
  | v4 (val : Nat)
  | v6 (val : Nat)
deriving DecidableEq

/-- Membership of `addr` in the network `base/plen` over `bits`-bit
addresses. -/
def inNet (bits addr base plen : Nat) : Bool :=
  addr >>> (bits - plen) == base >>> (bits - plen)

/-- CPython `IPv4Address.is_loopback`: 127.0.0.0/8. -/
def v4_is_loopback (a : Nat) : Bool := inNet 32 a 0x7F000000 8

/-- CPython `IPv4Address.is_multicast`: 224.0.0.0/4. -/
def v4_is_multicast (a : Nat) : Bool := inNet 32 a 0xE0000000 4

/-- CPython `IPv4Address.is_reserved`: 240.0.0.0/4. -/
def v4_is_reserved (a : Nat) : Bool := inNet 32 a 0xF0000000 4

/-- CPython `IPv4Address.is_link_local`: 169.254.0.0/16. -/
def v4_is_link_local (a : Nat) : Bool := inNet 32 a 0xA9FE0000 16

/-- CPython `IPv4Address.is_unspecified`: 0.0.0.0. -/
def v4_is_unspecified (a : Nat) : Bool := a == 0

/-- The `_private_networks` list of CPython `IPv4Address`
(0.0.0.0/8, 10.0.0.0/8, 127.0.0.0/8, 169.254.0.0/16, 172.16.0.0/12,
192.0.0.0/29, 192.0.0.170/31, 192.0.2.0/24, 192.168.0.0/16, 198.18.0.0/15,
198.51.100.0/24, 203.0.113.0/24, 240.0.0.0/4, 255.255.255.255/32). -/
def v4_private_nets : List (Nat × Nat) :=
  [(0x00000000, 8), (0x0A000000, 8), (0x7F000000, 8), (0xA9FE0000, 16),
   (0xAC100000, 12), (0xC0000000, 29), (0xC00000AA, 31), (0xC0000200, 24),
   (0xC0A80000, 16), (0xC6120000, 15), (0xC6336400, 24), (0xCB007100, 24),
   (0xF0000000, 4), (0xFFFFFFFF, 32)]

/-- CPython `IPv4Address.is_private`. -/
def v4_is_private (a : Nat) : Bool :=
  v4_private_nets.any (fun bp => inNet 32 a bp.1 bp.2)

/-- CPython `IPv6Address.is_loopback`: ::1. -/
def v6_is_loopback (a : Nat) : Bool := a == 1

/-- CPython `IPv6Address.is_multicast`: ff00::/8. -/
def v6_is_multicast (a : Nat) : Bool := inNet 128 a (0xFF00 <<< 112) 8

/-- CPython `IPv6Address.is_link_local`: fe80::/10. -/
def v6_is_link_local (a : Nat) : Bool := inNet 128 a (0xFE80 <<< 112) 10

/-- CPython `IPv6Address.is_unspecified`: ::. -/
def v6_is_unspecified (a : Nat) : Bool := a == 0

/-- The `_reserved_networks` list of CPython `IPv6Address`. -/
def v6_reserved_nets : List (Nat × Nat) :=
  [(0x0000 <<< 112, 8), (0x0100 <<< 112, 8), (0x0200 <<< 112, 7),
   (0x0400 <<< 112, 6), (0x0800 <<< 112, 5), (0x1000 <<< 112, 4),
   (0x4000 <<< 112, 3), (0x6000 <<< 112, 3), (0x8000 <<< 112, 3),
   (0xA000 <<< 112, 3), (0xC000 <<< 112, 3), (0xE000 <<< 112, 4),
   (0xF000 <<< 112, 5), (0xF800 <<< 112, 6), (0xFE00 <<< 112, 9)]

/-- CPython `IPv6Address.is_reserved`. -/
def v6_is_reserved (a : Nat) : Bool :=
  v6_reserved_nets.any (fun bp => inNet 128 a bp.1 bp.2)

/-- The `_private_networks` list of CPython `IPv6Address`
(::1/128, ::/128, ::ffff:0:0/96, 100::/64, 2001::/23, 2001:2::/48,
2001:db8::/32, 2001:10::/28, fc00::/7, fe80::/10). -/
def v6_private_nets : List (Nat × Nat) :=
  [(1, 128), (0, 128), (0xFFFF <<< 32, 96), (0x0100 <<< 112, 64),
   (0x2001 <<< 112, 23), ((0x2001 <<< 112) + (0x0002 <<< 96), 48),
   ((0x2001 <<< 112) + (0x0DB8 <<< 96), 32),
   ((0x2001 <<< 112) + (0x0010 <<< 96), 28),
   (0xFC00 <<< 112, 7), (0xFE80 <<< 112, 10)]

/-- CPython `IPv6Address.is_private`. -/
def v6_is_private (a : Nat) : Bool :=
  v6_private_nets.any (fun bp => inNet 128 a bp.1 bp.2)

/-- `ip.is_private` for either address family. -/
def ip_is_private : IPAddr → Bool
  | .v4 a => v4_is_private a
  | .v6 a => v6_is_private a

/-- `ip.is_loopback` for either address family. -/
def ip_is_loopback : IPAddr → Bool
  | .v4 a => v4_is_loopback a
  | .v6 a => v6_is_loopback a

/-- `ip.is_reserved` for either address family. -/
def ip_is_reserved : IPAddr → Bool
  | .v4 a => v4_is_reserved a
  | .v6 a => v6_is_reserved a

/-- `ip.is_link_local` for either address family. -/
def ip_is_link_local : IPAddr → Bool
  | .v4 a => v4_is_link_local a
  | .v6 a => v6_is_link_local a

/-- `ip.is_multicast` for either address family. -/
def ip_is_multicast : IPAddr → Bool
  | .v4 a => v4_is_multicast a
  | .v6 a => v6_is_multicast a

/-- `ip.is_unspecified` for either address family. -/
def ip_is_unspecified : IPAddr → Bool
  | .v4 a => v4_is_unspecified a
  | .v6 a => v6_is_unspecified a

/-- Embedding of `_is_public_ip` (identical in all five scripts):
an address is public when none of the six classification properties
holds. -/
def _is_public_ip (ip : IPAddr) : Bool :=
  !(ip_is_private ip || ip_is_loopback ip || ip_is_reserved ip ||
    ip_is_link_local ip || ip_is_multicast ip || ip_is_unspecified ip)

/-! ## CPython `ipaddress.ip_address`: textual parsing -/

/-- CPython `IPv4Address._parse_octet`: digits only, at most three of
them, value at most 255, no leading zero. -/
def _parse_octet (s : List Char) : Option Nat :=
  if s = [] then none
  else if !(s.all Char.isDigit) then none
  else if 3 < s.length then none
  else
    let n := decDigitsToNat s
    if 255 < n then none
    else if s.head? = some '0' ∧ 1 < s.length then none
    else some n

/-- CPython `IPv4Address._ip_int_from_string`: four dot-separated
octets. -/
def v4_int_from_string (s : List Char) : Option Nat :=
  let octets := s.splitOn '.'
  if octets.length ≠ 4 then none
  else do
    let vals ← octets.mapM _parse_octet
    pure (vals.foldl (fun acc o => acc * 256 + o) 0)

/-- CPython `IPv4Address` constructor on a string: rejects a slash, then
parses the dotted quad. -/
def parseIPv4 (s : List Char) : Option Nat :=
  if s.contains '/' then none else v4_int_from_string s

/-- CPython `IPv6Address._parse_hextet`: hex digits only, at most four. -/
def _parse_hextet (s : List Char) : Option Nat :=
  if s = [] then none
  else if !(s.all isHexDigitChar) then none
  else if 4 < s.length then none
  else some (hexDigitsToNat s)

/-- Final assembly step of `IPv6Address._ip_int_from_string`: the leading
hextets, the zero run, then the trailing hextets. -/
def v6_assemble (parts : List (List Char)) (hi lo skipped : Nat) : Option Nat := do
  let hiVals ← (parts.take hi).mapM _parse_hextet
  let loVals ← (parts.drop (parts.length - lo)).mapM _parse_hextet
  let ipHi := hiVals.foldl (fun acc v => acc * 65536 + v) 0
  pure (loVals.foldl (fun acc v => acc * 65536 + v) (ipHi * 65536 ^ skipped))

/-- CPython `IPv6Address._ip_int_from_string`: colon-separated hextets
with at most one `::` run and an optional trailing dotted quad. -/
def v6_int_from_string (s : List Char) : Option Nat :=
  if s = [] then none
  else
    let parts0 := s.splitOn ':'
    if parts0.length < 3 then none
    else
      let withV4 : Option (List (List Char)) :=
        match parts0.getLast? with
        | some lastPart =>
          if lastPart.contains '.' then
            match parseIPv4 lastPart with
            | some v4 =>
              some (parts0.dropLast ++
                [Nat.toDigits 16 ((v4 >>> 16) % 65536), Nat.toDigits 16 (v4 % 65536)])
            | none => none
          else some parts0
        | none => none
      match withV4 with
      | none => none
      | some parts =>
        if 9 < parts.length then none
        else
          let n := parts.length
          let innerEmpties :=
            (List.range n).filter
              (fun i => decide (0 < i ∧ i < n - 1 ∧ parts.getD i ['.'] = []))
          match innerEmpties with
          | [] =>
            if n ≠ 8 then none else v6_assemble parts 8 0 0
          | [k] =>
            let hiOpt : Option Nat :=
              if parts.getD 0 ['.'] = [] then (if k - 1 = 0 then some 0 else none)
              else some k
            let loOpt : Option Nat :=
              if parts.getD (n - 1) ['.'] = [] then
                (if n - k - 2 = 0 then some 0 else none)
              else some (n - k - 1)
            match hiOpt, loOpt with
            | some hi, some lo =>
              if 8 ≤ hi + lo then none
              else v6_assemble parts hi lo (8 - (hi + lo))
            | _, _ => none
          | _ => none

/-- CPython `IPv6Address` constructor on a string: rejects a slash,
splits off a percent scope id, parses the rest. -/
def parseIPv6 (s : List Char) : Option Nat :=
  if s.contains '/' then none
  else
    match s.findIdx? (fun c => c == '%') with
    | some i =>
      let scope := s.drop (i + 1)
      if scope = [] ∨ scope.contains '%' then none
      else v6_int_from_string (s.take i)
    | none => v6_int_from_string s

/-- CPython `ipaddress.ip_address` on a string: IPv4 first, IPv6 second,
failure when neither parses (the `ValueError` paths of the scripts). -/
def ip_address (s : String) : Option IPAddr :=
  match parseIPv4 s.toList with
  | some v => some (IPAddr.v4 v)
  | none =>
    match parseIPv6 s.toList with
    | some v => some (IPAddr.v6 v)
    | none => none

/-! ## CPython `urllib.parse`: urlsplit, urlparse, hostname, urljoin -/

/-- The scheme characters accepted by `urlsplit`. -/
def schemeChars : List Char :=
  "abcdefghijklmnopqrstuvwxyzABCDEFGHIJKLMNOPQRSTUVWXYZ0123456789+-.".toList

/-- WHATWG C0-control-or-space test used by the leading strip in
`urlsplit`. -/
def isC0ControlOrSpace (c : Char) : Bool := c.toNat ≤ 0x20

/-- The unsafe bytes `urlsplit` deletes everywhere: tab, CR, LF. -/
def isUnsafeUrlByte (c : Char) : Bool := c == '\t' || c == '\r' || c == '\n'

/-- Scheme extraction step of `urlsplit`: the text before the first
colon, when it starts with an ASCII letter and uses scheme characters
only; otherwise the supplied default. -/
def extractScheme (defaultScheme url : List Char) : List Char × List Char :=
  match url.findIdx? (fun c => c == ':') with
  | some i =>
    if decide (0 < i) && (url.getD 0 ' ').isAlpha
        && (url.take i).all (fun c => schemeChars.contains c) then
      ((url.take i).map Char.toLower, url.drop (i + 1))
    else (defaultScheme, url)
  | none => (defaultScheme, url)

/-- CPython `_splitnetloc`: after a leading `//`, the netloc runs to the
first of `/`, `?`, `#`. -/
def splitnetloc (url : List Char) : List Char × List Char :=
  match url with
  | '/' :: '/' :: rest =>
    match rest.findIdx? (fun c => c == '/' || c == '?' || c == '#') with
    | some d => (rest.take d, rest.drop d)
    | none => (rest, [])
  | other => ([], other)

/-- The five `urlsplit` components, on character lists. -/
structure SplitL where
  scheme : List Char
  netloc : List Char
  path : List Char
  query : List Char
  fragment : List Char
deriving DecidableEq

/-- CPython `urlsplit` with `allow_fragments=True`.  The `ValueError`
paths for malformed bracketed hosts are not modelled (no claim reaches
them). -/
def urlsplitL (url0 defaultScheme0 : List Char) : SplitL :=
  let url1 := (url0.dropWhile isC0ControlOrSpace).filter (fun c => !isUnsafeUrlByte c)
  let ds := (pyStripL defaultScheme0).filter (fun c => !isUnsafeUrlByte c)
  let sr := extractScheme ds url1
  let nr := splitnetloc sr.2
  let fr := if nr.2.contains '#' then splitFirst '#' nr.2 else (nr.2, [])
  let pq := if fr.1.contains '?' then splitFirst '?' fr.1 else (fr.1, [])
  ⟨sr.1, nr.1, pq.1, pq.2, fr.2⟩

/-- The schemes treated as carrying parameters (`uses_params`). -/
def uses_params : List String :=
  ["", "ftp", "hdl", "prospero", "http", "imap", "https", "shttp", "rtsp",
   "rtsps", "rtspu", "sip", "sips", "mms", "sftp", "tel"]

/-- The schemes supporting relative joining (`uses_relative`). -/
def uses_relative : List String :=
  ["", "ftp", "http", "gopher", "nntp", "imap", "wais", "file", "https",
   "shttp", "mms", "prospero", "rtsp", "rtsps", "rtspu", "sftp", "svn",
   "svn+ssh", "ws", "wss"]

/-- The schemes that use a network location (`uses_netloc`). -/
def uses_netloc : List String :=
  ["", "ftp", "http", "gopher", "nntp", "telnet", "imap", "wais", "file",
   "mms", "https", "shttp", "snews", "prospero", "rtsp", "rtsps", "rtspu",
   "rsync", "svn", "svn+ssh", "sftp", "nfs", "git", "git+ssh", "ws", "wss"]

/-- CPython `_splitparams`: parameters are the text after a `;` in the
last path segment. -/
def splitparams (url : List Char) : List Char × List Char :=
  let found :=
    if url.contains '/' then
      match url.reverse.findIdx? (fun c => c == '/') with
      | some ri =>
        let base := url.length - 1 - ri
        match (url.drop base).findIdx? (fun c => c == ';') with
        | some j => some (base + j)
        | none => none
      | none => none
    else url.findIdx? (fun c => c == ';')
  match found with
  | some i => (url.take i, url.drop (i + 1))
  | none => (url, [])

/-- The six `urlparse` components, as strings. -/
structure SplitResult where
  scheme : String
  netloc : String
  path : String
  params : String
  query : String
  fragment : String
deriving DecidableEq

/-- CPython `urlparse`: `urlsplit` plus the parameter split. -/
def urlparse (url defaultScheme : String) : SplitResult :=
  let s := urlsplitL url.toList defaultScheme.toList
  if s.scheme.asString ∈ uses_params ∧ s.path.contains ';' then
    let pp := splitparams s.path
    ⟨s.scheme.asString, s.netloc.asString, pp.1.asString, pp.2.asString,
     s.query.asString, s.fragment.asString⟩
  else
    ⟨s.scheme.asString, s.netloc.asString, s.path.asString, "",
     s.query.asString, s.fragment.asString⟩

/-- The `hostname` property of a parse result: userinfo and port are
stripped from the netloc, brackets unwrapped, the name lowercased (zone
ids excepted), `none` when empty. -/
def splitHostnameL (netloc : List Char) : Option (List Char) :=
  let hostinfo := afterLast '@' netloc
  let hostname0 :=
    if hostinfo.contains '[' then (splitFirst ']' ((splitFirst '[' hostinfo).2)).1
    else (splitFirst ':' hostinfo).1
  if hostname0 = [] then none
  else if hostname0.contains '%' then
    let pz := splitFirst '%' hostname0
    some ((pz.1.map Char.toLower) ++ '%' :: pz.2)
  else some (hostname0.map Char.toLower)

/-- `urlparse(u).hostname` as an `Option String`. -/
def splitHostname (p : SplitResult) : Option String :=
  (splitHostnameL p.netloc.toList).map List.asString

/-- CPython `urlunsplit`. -/
def urlunsplit (scheme netloc path query fragment : String) : String :=
  let url0 := path
  let url1 :=
    if netloc ≠ "" ∨ url0.toList.take 2 = ['/', '/'] then
      "//" ++ netloc ++
        (if url0 ≠ "" ∧ url0.toList.take 1 ≠ ['/'] then "/" ++ url0 else url0)
    else url0
  let url2 := if scheme ≠ "" then scheme ++ ":" ++ url1 else url1
  let url3 := if query ≠ "" then url2 ++ "?" ++ query else url2
  if fragment ≠ "" then url3 ++ "#" ++ fragment else url3

/-- CPython `urlunparse`. -/
def urlunparse (scheme netloc path params query fragment : String) : String :=
  let p := if params ≠ "" then path ++ ";" ++ params else path
  urlunsplit scheme netloc p query fragment

/-- The `segments[1:-1] = filter(None, segments[1:-1])` step of
`urljoin`. -/
def filterInterior (l : List (List Char)) : List (List Char) :=
  match l with
  | [] => []
  | [x] => [x]
  | x :: rest =>
    x :: ((rest.dropLast.filter (fun s => !s.isEmpty)) ++ rest.drop (rest.length - 1))

/-- The segment resolution loop of `urljoin` (`.` skipped, `..` pops). -/
def resolveSegments (segments : List (List Char)) : List (List Char) :=
  segments.foldl
    (fun acc seg =>
      if seg = ['.', '.'] then acc.dropLast
      else if seg = ['.'] then acc
      else acc ++ [seg]) []

/-- CPython `urljoin` with `allow_fragments=True`. -/
def urljoin (base url : String) : String :=
  if base = "" then url
  else if url = "" then base
  else
    let b := urlparse base ""
    let u := urlparse url b.scheme
    if u.scheme ≠ b.scheme ∨ u.scheme ∉ uses_relative then url
    else if u.scheme ∈ uses_netloc ∧ u.netloc ≠ "" then
      urlunparse u.scheme u.netloc u.path u.params u.query u.fragment
    else
      let netloc := if u.scheme ∈ uses_netloc then b.netloc else u.netloc
      if u.path = "" ∧ u.params = "" then
        let query := if u.query = "" then b.query else u.query
        urlunparse u.scheme netloc b.path b.params query u.fragment
      else
        let bpathL := b.path.toList
        let upathL := u.path.toList
        let base_parts0 := bpathL.splitOn '/'
        let base_parts :=
          if base_parts0.getLast? ≠ some [] then base_parts0.dropLast else base_parts0
        let segments :=
          if upathL.take 1 = ['/'] then upathL.splitOn '/'
          else filterInterior (base_parts ++ upathL.splitOn '/')
        let resolved0 := resolveSegments segments
        let resolved :=
          if segments.getLast? = some ['.'] ∨ segments.getLast? = some ['.', '.'] then
            resolved0 ++ [[]]
          else resolved0
        let joined := List.intercalate ['/'] resolved
        let path2 := if joined = [] then "/" else joined.asString
        urlunparse u.scheme netloc path2 u.params u.query u.fragment

/-! ## The guard: `_is_public_host`, `_validate_url`,
`_validate_final_page_url`, the route handler, the host cache -/

/-- The resolved-address loop of `_is_public_host`: walk the
`getaddrinfo` results, skip addresses already seen, parse each new one,
and block on the first non-public (or unparseable) address. -/
def checkAddrs (hostname : String) : List String → List String → Bool × String
  | [], _ => (true, "")
  | a :: rest, seen =>
    if a ∈ seen then checkAddrs hostname rest seen
    else
      match ip_address a with
      | none => (false, "Invalid resolved IP for " ++ hostname ++ ": " ++ a)
      | some ip =>
        if _is_public_ip ip = false then
          (false, "Blocked non-public IP for " ++ hostname ++ ": " ++ a)
        else checkAddrs hostname rest (a :: seen)

/-- Embedding of `_is_public_host` (identical in all five scripts),
parameterized by the DNS resolver. -/
def _is_public_host (resolve : Resolver) (hostname : String) : Bool × String :=
  if hostname = "" then (false, "Missing hostname")
  else
    match ip_address hostname with
    | some ip =>
      if _is_public_ip ip = false then
        (false, "Blocked non-public IP: " ++ hostname)
      else (true, "")
    | none =>
      match resolve hostname with
      | .error e => (false, "DNS resolution failed for " ++ hostname ++ ": " ++ e)
      | .ok addrs => checkAddrs hostname addrs []

/-- The tail of `_validate_url` after whitespace strip and scheme
defaulting: the scheme whitelist, the hostname check, and the delegation
to `_is_public_host`; `url` is the normalized text returned on
success. -/
def validateParsed (resolve : Resolver) (url : String) (parsed : SplitResult) :
    Option String × Option String :=
  if parsed.scheme ≠ "http" ∧ parsed.scheme ≠ "https" then
    (none, some ("Invalid URL scheme: " ++ parsed.scheme))
  else
    match splitHostname parsed with
    | none => (none, some "Invalid URL: missing hostname")
    | some h =>
      let pub := _is_public_host resolve h
      if pub.1 = false then (none, some pub.2) else (some url, none)

/-- Embedding of `_validate_url` (identical in all five scripts): strip,
default the scheme to https when `urlparse` reports none, then run the
checks of `validateParsed`. -/
def _validate_url (resolve : Resolver) (raw_url : String) :
    Option String × Option String :=
  let url0 := pyStrip raw_url
  let parsed0 := urlparse url0 ""
  if parsed0.scheme = "" then
    validateParsed resolve ("https://" ++ url0) (urlparse ("https://" ++ url0) "")
  else validateParsed resolve url0 parsed0

/-- Embedding of `_validate_final_page_url`
(`analyze_landing.py`, also inlined in the screenshot and visual
scripts after navigation). -/
def _validate_final_page_url (resolve : Resolver) (page_url : String) :
    Bool × String :=
  let parsed := urlparse page_url ""
  if (parsed.scheme ≠ "http" ∧ parsed.scheme ≠ "https") ∨ splitHostname parsed = none then
    (false, "Blocked final URL: " ++ page_url)
  else
    let pub := _is_public_host resolve ((splitHostname parsed).getD "")
    if pub.1 = false then (false, "Blocked final URL: " ++ pub.2)
    else (true, "")

/-- The decision a route handler takes on one intercepted request. -/
inductive RouteAction where
  | allow
  | abort
deriving DecidableEq

/-- The session host cache: the `host_cache` dict of the scripts. -/
abbrev HostCache := List (String × (Bool × String))

/-- The cache lookup-or-validate fragment of `route_handler`
(spec name: `SessionHostCache.get_or_validate`).  The third component
counts how many times the underlying host validator ran (0 or 1),
mirroring the call-count instrumentation the spec asks for. -/
def get_or_validate (resolve : Resolver) (host_cache : HostCache) (h : String) :
    (Bool × String) × HostCache × Nat :=
  match host_cache.lookup h with
  | some cached => (cached, host_cache, 0)
  | none =>
    let cached := _is_public_host resolve h
    (cached, host_cache ++ [(h, cached)], 1)

/-- Embedding of `route_handler` (identical in `_attach_route_guard` of
`analyze_landing.py` and the inline closures of the screenshot and
visual scripts): the decision on `req_url` plus the updated shared
cache.  `route.continue_()` is `RouteAction.allow`, `route.abort()` is
`RouteAction.abort`. -/
def route_handler (resolve : Resolver) (host_cache : HostCache) (req_url : String) :
    RouteAction × HostCache :=
  let parsed := urlparse req_url ""
  if parsed.scheme = "data" ∨ parsed.scheme = "blob" ∨ parsed.scheme = "about" then
    (RouteAction.allow, host_cache)
  else if (parsed.scheme ≠ "http" ∧ parsed.scheme ≠ "https")
      ∨ splitHostname parsed = none then
    (RouteAction.abort, host_cache)
  else
    let h := (splitHostname parsed).getD ""
    let r := get_or_validate resolve host_cache h
    if r.1.1 = false then (RouteAction.abort, r.2.1)
    else (RouteAction.allow, r.2.1)

/-! ## `fetch_page`: the redirect-chain loop -/

/-- A response of the collaborator HTTP client, as `fetch_page` reads
it: `response.url`, `response.status_code`, `response.is_redirect`,
`response.headers`, `response.text`. -/
structure HttpResponse where
  url : String
  status_code : Nat
  is_redirect : Bool
  headers : List (String × String)
  text : String
deriving DecidableEq

/-- ASCII lowercasing of a string, by characters. -/
def lowerStr (s : String) : String := (s.toList.map Char.toLower).asString

/-- `response.headers.get(key)`: the `requests` header mapping is
case-insensitive. -/
def headersGet (headers : List (String × String)) (key : String) : Option String :=
  (headers.find? (fun kv => lowerStr kv.1 == lowerStr key)).map (fun kv => kv.2)

/-- The result dictionary of `fetch_page`. -/
structure FetchResult where
  url : String
  status_code : Option Nat
  content : Option String
  headers : List (String × String)
  redirect_chain : List String
  error : Option String
deriving DecidableEq

/-- The result dictionary on an error path: only `url` (the original
input) and `error` are populated. -/
def errResult (origUrl msg : String) : FetchResult :=
  ⟨origUrl, none, none, [], [], some msg⟩

/-- The success branch of the loop: the terminal, non-redirect response
(after its final URL passed the re-check). -/
def okResult (resp : HttpResponse) (chain : List String) : FetchResult :=
  ⟨resp.url, some resp.status_code, some resp.text, resp.headers, chain, none⟩

/-- The terminal branch of the loop in `fetch_page`: the final URL is
re-checked through `_is_public_host`, but only when its parsed hostname
is present. -/
def finalizeResponse (resolve : Resolver) (origUrl : String) (resp : HttpResponse)
    (chain : List String) : FetchResult :=
  match splitHostname (urlparse resp.url "") with
  | some h =>
    let pub := _is_public_host resolve h
    if pub.1 = false then errResult origUrl ("Blocked final URL: " ++ pub.2)
    else okResult resp chain
  | none => okResult resp chain

/-- The `for _ in range(max_redirects + 1)` loop of `fetch_page`, with
fuel.  The second component of the result records every URL passed to
`session.get`, in order, so that claims about which requests were issued
are expressible. -/
def fetchLoop (http : String → HttpResponse) (resolve : Resolver) (follow : Bool)
    (maxRed : Nat) (origUrl : String) :
    Nat → String → List String → List String → FetchResult × List String
  | 0, _, _, trace =>
    (errResult origUrl ("Too many redirects (max " ++ toString maxRed ++ ")"), trace)
  | fuel + 1, current, chain, trace =>
    let resp := http current
    let trace1 := trace ++ [current]
    if follow = false ∨ resp.is_redirect = false then
      (finalizeResponse resolve origUrl resp chain, trace1)
    else
      match headersGet resp.headers "Location" with
      | none => (errResult origUrl "Redirect response missing Location header", trace1)
      | some location =>
        if location = "" then
          (errResult origUrl "Redirect response missing Location header", trace1)
        else
          let next := urljoin current location
          let parsed_next := urlparse next ""
          if (parsed_next.scheme ≠ "http" ∧ parsed_next.scheme ≠ "https")
              ∨ splitHostname parsed_next = none then
            (errResult origUrl ("Blocked redirect target: " ++ next), trace1)
          else
            let pub := _is_public_host resolve ((splitHostname parsed_next).getD "")
            if pub.1 = false then
              (errResult origUrl ("Blocked redirect target: " ++ pub.2), trace1)
            else
              fetchLoop http resolve follow maxRed origUrl fuel next
                (chain ++ [next]) trace1

/-- Embedding of `fetch_page`, parameterized by the HTTP client and the
resolver.  Timeouts and transport exceptions are outside the pure model;
the dead `(none, none)` validator shape is mapped to an empty error.  The
second component is the ordered list of URLs actually requested. -/
def fetch_page (http : String → HttpResponse) (resolve : Resolver) (url : String)
    (follow_redirects : Bool) (max_redirects : Nat) : FetchResult × List String :=
  match _validate_url resolve url with
  | (_, some e) => (errResult url e, [])
  | (some v, none) =>
    fetchLoop http resolve follow_redirects max_redirects url (max_redirects + 1) v [] []
  | (none, none) => (errResult url "", [])

/-! ## Helper lemmas -/

/-- One unfolding of the loop: address already seen. -/
theorem checkAddrs_seen (hn a : String) (rest seen : List String) (hmem : a ∈ seen) :
    checkAddrs hn (a :: rest) seen = checkAddrs hn rest seen := by
  simp [checkAddrs, if_pos hmem]

/-- One unfolding of the loop: new address that fails to parse. -/
theorem checkAddrs_invalid (hn a : String) (rest seen : List String)
    (hmem : a ∉ seen) (hip : ip_address a = none) :
    checkAddrs hn (a :: rest) seen =
      (false, "Invalid resolved IP for " ++ hn ++ ": " ++ a) := by
  simp [checkAddrs, if_neg hmem, hip]

/-- One unfolding of the loop: new address that is non-public. -/
theorem checkAddrs_nonpublic (hn a : String) (rest seen : List String) (ip : IPAddr)
    (hmem : a ∉ seen) (hip : ip_address a = some ip) (hpub : _is_public_ip ip = false) :
    checkAddrs hn (a :: rest) seen =
      (false, "Blocked non-public IP for " ++ hn ++ ": " ++ a) := by
  simp [checkAddrs, if_neg hmem, hip, hpub]

/-- One unfolding of the loop: new public address. -/
theorem checkAddrs_public (hn a : String) (rest seen : List String) (ip : IPAddr)
    (hmem : a ∉ seen) (hip : ip_address a = some ip) (hpub : _is_public_ip ip = true) :
    checkAddrs hn (a :: rest) seen = checkAddrs hn rest (a :: seen) := by
  simp [checkAddrs, if_neg hmem, hip, hpub]

/-- Characterization of the address loop: it reports public exactly when
every address is already seen or parses to a public IP. -/
theorem checkAddrs_fst_true_iff (hn : String) (addrs : List String) :
    ∀ seen : List String,
      ((checkAddrs hn addrs seen).1 = true ↔
        ∀ a ∈ addrs, a ∈ seen ∨ ∃ ip, ip_address a = some ip ∧ _is_public_ip ip = true) := by
  induction addrs with
  | nil => intro seen; simp [checkAddrs]
  | cons a rest ih =>
    intro seen
    by_cases hmem : a ∈ seen
    · rw [checkAddrs_seen hn a rest seen hmem, ih]
      simp only [List.forall_mem_cons]
      constructor
      · intro H
        exact ⟨Or.inl hmem, H⟩
      · rintro ⟨_, H⟩
        exact H
    · cases hip : ip_address a with
      | none =>
        rw [checkAddrs_invalid hn a rest seen hmem hip]
        simp only [List.forall_mem_cons]
        refine ⟨fun h => absurd h (by simp), fun hR => ?_⟩
        rcases hR.1 with h' | ⟨ip', hip', _⟩
        · exact absurd h' hmem
        · rw [hip] at hip'
          cases hip'
      | some ip =>
        cases hpub : _is_public_ip ip with
        | false =>
          rw [checkAddrs_nonpublic hn a rest seen ip hmem hip hpub]
          simp only [List.forall_mem_cons]
          refine ⟨fun h => absurd h (by simp), fun hR => ?_⟩
          rcases hR.1 with h' | ⟨ip', hip', hpub'⟩
          · exact absurd h' hmem
          · rw [hip] at hip'
            cases hip'
            rw [hpub'] at hpub
            cases hpub
        | true =>
          rw [checkAddrs_public hn a rest seen ip hmem hip hpub, ih]
          simp only [List.forall_mem_cons]
          constructor
          · intro H
            refine ⟨Or.inr ⟨ip, hip, hpub⟩, fun b hb => ?_⟩
            rcases H b hb with h' | h'
            · rcases List.mem_cons.mp h' with rfl | h''
              · exact Or.inr ⟨ip, hip, hpub⟩
              · exact Or.inl h''
            · exact Or.inr h'
          · rintro ⟨_, H⟩ b hb
            rcases H b hb with h' | h'
            · exact Or.inl (List.mem_cons_of_mem _ h')
            · exact Or.inr h'

/-- When every resolved address parses and some unseen one is
non-public, the loop blocks and reports a non-public offender. -/
theorem checkAddrs_blocked (hn : String) (addrs : List String) :
    ∀ seen : List String,
      (∀ a ∈ addrs, ∃ ip, ip_address a = some ip) →
      (∃ a ∈ addrs, a ∉ seen ∧ ∃ ip, ip_address a = some ip ∧ _is_public_ip ip = false) →
      (checkAddrs hn addrs seen).1 = false ∧
      ∃ a ∈ addrs, (∃ ip, ip_address a = some ip ∧ _is_public_ip ip = false) ∧
        (checkAddrs hn addrs seen).2 = "Blocked non-public IP for " ++ hn ++ ": " ++ a := by
  induction addrs with
  | nil =>
    intro seen _ hex
    simp at hex
  | cons a rest ih =>
    intro seen hall hex
    by_cases hmem : a ∈ seen
    · have hex' : ∃ b ∈ rest, b ∉ seen ∧ ∃ ip, ip_address b = some ip ∧ _is_public_ip ip = false := by
        obtain ⟨w, hw, hwseen, hwip⟩ := hex
        rcases List.mem_cons.mp hw with rfl | hw'
        · exact absurd hmem hwseen
        · exact ⟨w, hw', hwseen, hwip⟩
      have hall' : ∀ b ∈ rest, ∃ ip, ip_address b = some ip :=
        fun b hb => hall b (List.mem_cons_of_mem _ hb)
      obtain ⟨h1, w, hw, hwbad, h2⟩ := ih seen hall' hex'
      rw [checkAddrs_seen hn a rest seen hmem]
      exact ⟨h1, w, List.mem_cons_of_mem _ hw, hwbad, h2⟩
    · obtain ⟨ip, hip⟩ := hall a (List.mem_cons_self a rest)
      cases hpub : _is_public_ip ip with
      | false =>
        rw [checkAddrs_nonpublic hn a rest seen ip hmem hip hpub]
        exact ⟨rfl, a, List.mem_cons_self a rest, ⟨ip, hip, hpub⟩, rfl⟩
      | true =>
        have hex' : ∃ b ∈ rest, b ∉ (a :: seen) ∧
            ∃ ip2, ip_address b = some ip2 ∧ _is_public_ip ip2 = false := by
          obtain ⟨w, hw, hwseen, ip2, hwip, hwpub⟩ := hex
          have hwa : w ≠ a := by
            rintro rfl
            rw [hip] at hwip
            cases hwip
            rw [hpub] at hwpub
            cases hwpub
          rcases List.mem_cons.mp hw with rfl | hw'
          · exact absurd rfl hwa
          · refine ⟨w, hw', ?_, ip2, hwip, hwpub⟩
            intro hmem'
            rcases List.mem_cons.mp hmem' with rfl | h''
            · exact hwa rfl
            · exact hwseen h''
        have hall' : ∀ b ∈ rest, ∃ ip2, ip_address b = some ip2 :=
          fun b hb => hall b (List.mem_cons_of_mem _ hb)
        obtain ⟨h1, w, hw, hwbad, h2⟩ := ih (a :: seen) hall' hex'
        rw [checkAddrs_public hn a rest seen ip hmem hip hpub]
        exact ⟨h1, w, List.mem_cons_of_mem _ hw, hwbad, h2⟩

/-- Spec-side definition (spec sections 3, 8), written from the words of
the spec rather than from the code: the documented non-public ranges —
IPv4 private 10/8, 172.16/12, 192.168/16, loopback 127/8, link-local
169.254/16, multicast 224/4, reserved 240/4, unspecified 0.0.0.0 and
the broadcast 255.255.255.255; IPv6 unique-local fc00::/7, link-local
fe80::/10, multicast ff00::/8, documentation 2001:db8::/32, loopback ::1
and unspecified ::. -/
def documentedNonPublicRange : IPAddr → Bool
  | .v4 a =>
    inNet 32 a 0x0A000000 8 || inNet 32 a 0xAC100000 12 || inNet 32 a 0xC0A80000 16 ||
    inNet 32 a 0x7F000000 8 || inNet 32 a 0xA9FE0000 16 || inNet 32 a 0xE0000000 4 ||
    inNet 32 a 0xF0000000 4 || a == 0 || a == 0xFFFFFFFF
  | .v6 a =>
    inNet 128 a (0xFC00 <<< 112) 7 || inNet 128 a (0xFE80 <<< 112) 10 ||
    inNet 128 a (0xFF00 <<< 112) 8 ||
    inNet 128 a ((0x2001 <<< 112) + (0x0DB8 <<< 96)) 32 ||
    a == 1 || a == 0

/-- An address in the private class is not public. -/
theorem not_public_of_private (ip : IPAddr) (h : ip_is_private ip = true) :
    _is_public_ip ip = false := by simp [_is_public_ip, h]

/-- An address in the loopback class is not public. -/
theorem not_public_of_loopback (ip : IPAddr) (h : ip_is_loopback ip = true) :
    _is_public_ip ip = false := by simp [_is_public_ip, h]

/-- An address in the reserved class is not public. -/
theorem not_public_of_reserved (ip : IPAddr) (h : ip_is_reserved ip = true) :
    _is_public_ip ip = false := by simp [_is_public_ip, h]

/-- An address in the link-local class is not public. -/
theorem not_public_of_link_local (ip : IPAddr) (h : ip_is_link_local ip = true) :
    _is_public_ip ip = false := by simp [_is_public_ip, h]

/-- An address in the multicast class is not public. -/
theorem not_public_of_multicast (ip : IPAddr) (h : ip_is_multicast ip = true) :
    _is_public_ip ip = false := by simp [_is_public_ip, h]

/-- The unspecified address is not public. -/
theorem not_public_of_unspecified (ip : IPAddr) (h : ip_is_unspecified ip = true) :
    _is_public_ip ip = false := by simp [_is_public_ip, h]

/-- C2: for every parsed IP address, `_is_public_ip` returns public iff
none of the classes private, loopback, reserved, link-local, multicast,
unspecified matches it; in particular it never returns public for an
address in a documented private, loopback, link-local, reserved,
multicast or unspecified range. -/
theorem C2_is_public_ip_classification (ip : IPAddr) :
    (_is_public_ip ip = true ↔
      (ip_is_private ip = false ∧ ip_is_loopback ip = false ∧ ip_is_reserved ip = false ∧
       ip_is_link_local ip = false ∧ ip_is_multicast ip = false ∧ ip_is_unspecified ip = false))
    ∧ (documentedNonPublicRange ip = true → _is_public_ip ip = false) := by
  constructor
  · simp [_is_public_ip, Bool.not_eq_true', Bool.or_eq_false_iff, and_assoc]
  · intro h
    cases ip with
    | v4 a =>
      simp only [documentedNonPublicRange, Bool.or_eq_true, beq_iff_eq] at h
      rcases h with ((((((((h | h) | h) | h) | h) | h) | h) | h) | h)
      · exact not_public_of_private _ (by simp [ip_is_private, v4_is_private, v4_private_nets, h])
      · exact not_public_of_private _ (by simp [ip_is_private, v4_is_private, v4_private_nets, h])
      · exact not_public_of_private _ (by simp [ip_is_private, v4_is_private, v4_private_nets, h])
      · exact not_public_of_loopback _ (by simpa [ip_is_loopback, v4_is_loopback] using h)
      · exact not_public_of_link_local _ (by simpa [ip_is_link_local, v4_is_link_local] using h)
      · exact not_public_of_multicast _ (by simpa [ip_is_multicast, v4_is_multicast] using h)
      · exact not_public_of_reserved _ (by simpa [ip_is_reserved, v4_is_reserved] using h)
      · exact not_public_of_unspecified _ (by simp [ip_is_unspecified, v4_is_unspecified, h])
      · subst h
        exact not_public_of_private _ (by decide)
    | v6 a =>
      simp only [documentedNonPublicRange, Bool.or_eq_true, beq_iff_eq] at h
      rcases h with (((((h | h) | h) | h) | h) | h)
      · refine not_public_of_private _ ?_
        show (v6_private_nets.any fun bp => inNet 128 a bp.1 bp.2) = true
        rw [List.any_eq_true]
        exact ⟨(0xFC00 <<< 112, 7), by decide, h⟩
      · exact not_public_of_link_local _ (by simpa [ip_is_link_local, v6_is_link_local] using h)
      · exact not_public_of_multicast _ (by simpa [ip_is_multicast, v6_is_multicast] using h)
      · refine not_public_of_private _ ?_
        show (v6_private_nets.any fun bp => inNet 128 a bp.1 bp.2) = true
        rw [List.any_eq_true]
        exact ⟨((0x2001 <<< 112) + (0x0DB8 <<< 96), 32), by decide, h⟩
      · exact not_public_of_loopback _ (by simp [ip_is_loopback, v6_is_loopback, h])
      · exact not_public_of_unspecified _ (by simp [ip_is_unspecified, v6_is_unspecified, h])

/-- Witness for C2: 10.0.0.5 lies in a documented private range and the
classifier indeed does not call it public. -/
theorem C2_is_public_ip_classification_witness :
    documentedNonPublicRange (IPAddr.v4 0x0A000005) = true ∧
    _is_public_ip (IPAddr.v4 0x0A000005) = false :=
  ⟨by decide, (C2_is_public_ip_classification (IPAddr.v4 0x0A000005)).2 (by decide)⟩

/-- C1: the host validator blocks an empty hostname with
"Missing hostname"; blocks on DNS failure with a reason carrying the
hostname and the cause; blocks whenever some resolved address is
non-public (in any order, even with public addresses present), naming
the hostname and an offending address; and allows exactly when every
deduplicated resolved address is public. -/
theorem C1_validate_host (resolve : Resolver) (hn : String) :
    (hn = "" → _is_public_host resolve hn = (false, "Missing hostname"))
    ∧ (∀ e, hn ≠ "" → ip_address hn = none → resolve hn = Except.error e →
        _is_public_host resolve hn = (false, "DNS resolution failed for " ++ hn ++ ": " ++ e))
    ∧ (∀ addrs, hn ≠ "" → ip_address hn = none → resolve hn = Except.ok addrs →
        (∀ a ∈ addrs, ∃ ip, ip_address a = some ip) →
        (∃ a ∈ addrs, ∃ ip, ip_address a = some ip ∧ _is_public_ip ip = false) →
        (_is_public_host resolve hn).1 = false ∧
        ∃ a ∈ addrs, (∃ ip, ip_address a = some ip ∧ _is_public_ip ip = false) ∧
          (_is_public_host resolve hn).2 = "Blocked non-public IP for " ++ hn ++ ": " ++ a)
    ∧ (∀ addrs, hn ≠ "" → ip_address hn = none → resolve hn = Except.ok addrs →
        ((_is_public_host resolve hn).1 = true ↔
          ∀ a ∈ addrs.dedup, ∃ ip, ip_address a = some ip ∧ _is_public_ip ip = true)) := by
  refine ⟨?_, ?_, ?_, ?_⟩
  · rintro rfl
    rfl
  · intro e hne hip hres
    simp [_is_public_host, hne, hip, hres]
  · intro addrs hne hip hres hall hex
    have hrw : _is_public_host resolve hn = checkAddrs hn addrs [] := by
      simp [_is_public_host, hne, hip, hres]
    rw [hrw]
    refine checkAddrs_blocked hn addrs [] hall ?_
    obtain ⟨a, ha, hbad⟩ := hex
    exact ⟨a, ha, List.not_mem_nil a, hbad⟩
  · intro addrs hne hip hres
    have hrw : _is_public_host resolve hn = checkAddrs hn addrs [] := by
      simp [_is_public_host, hne, hip, hres]
    rw [hrw, checkAddrs_fst_true_iff]
    simp [List.mem_dedup]

/-- Witness for C1 at a concrete resolver and concrete hostnames. -/
theorem C1_validate_host_witness :
    (_is_public_host (fun _ => Except.error "boom") "" = (false, "Missing hostname"))
    ∧ (_is_public_host (fun _ => Except.error "boom") "nx.example"
        = (false, "DNS resolution failed for nx.example: boom"))
    ∧ ((_is_public_host (fun _ => Except.ok ["93.184.216.34", "10.0.0.5"]) "multi.example").1 = false)
    ∧ ((_is_public_host (fun _ => Except.ok ["93.184.216.34"]) "good.example").1 = true) := by
  refine ⟨?_, ?_, ?_, ?_⟩
  · exact (C1_validate_host (fun _ => Except.error "boom") "").1 rfl
  · exact (C1_validate_host (fun _ => Except.error "boom") "nx.example").2.1 "boom"
      (by decide) (by decide) rfl
  · refine ((C1_validate_host (fun _ => Except.ok ["93.184.216.34", "10.0.0.5"])
        "multi.example").2.2.1 ["93.184.216.34", "10.0.0.5"]
        (by decide) (by decide) rfl ?_ ?_).1
    · intro a ha
      fin_cases ha
      · exact ⟨IPAddr.v4 1572395042, rfl⟩
      · exact ⟨IPAddr.v4 167772165, rfl⟩
    · exact ⟨"10.0.0.5", by decide, IPAddr.v4 167772165, rfl, by decide⟩
  · refine ((C1_validate_host (fun _ => Except.ok ["93.184.216.34"]) "good.example").2.2.2
      ["93.184.216.34"] (by decide) (by decide) rfl).mpr ?_
    intro a ha
    rw [List.mem_dedup] at ha
    fin_cases ha
    exact ⟨IPAddr.v4 1572395042, rfl, by decide⟩

/-- C9: a hostname that is a literal IP textual form is classified
directly, with no DNS resolution (the result does not depend on the
resolver); the literal "10.0.0.5" is blocked with a reason naming it as
a blocked non-public IP, and a literal globally routable address is
allowed. -/
theorem C9_literal_ip_no_dns (r₁ r₂ : Resolver) (hn : String) :
    ((∃ ip, ip_address hn = some ip) → _is_public_host r₁ hn = _is_public_host r₂ hn)
    ∧ _is_public_host r₁ "10.0.0.5" = (false, "Blocked non-public IP: 10.0.0.5")
    ∧ _is_public_host r₁ "93.184.216.34" = (true, "") := by
  refine ⟨?_, ?_, ?_⟩
  · rintro ⟨ip, hip⟩
    by_cases hne : hn = ""
    · subst hne
      rfl
    · simp [_is_public_host, hne, hip]
  · rfl
  · rfl

/-- Witness for C9: the loopback literal gets the same decision under
two different resolvers. -/
theorem C9_literal_ip_no_dns_witness :
    _is_public_host (fun _ => Except.ok ["1.2.3.4"]) "127.0.0.1"
      = _is_public_host (fun _ => Except.error "boom") "127.0.0.1" :=
  (C9_literal_ip_no_dns (fun _ => Except.ok ["1.2.3.4"]) (fun _ => Except.error "boom")
    "127.0.0.1").1 ⟨IPAddr.v4 2130706433, rfl⟩

/-- Lookup in a cache extended at the tail finds the new entry when the
key was absent before. -/
theorem lookup_append_singleton {β : Type} (l : List (String × β)) (h : String) (v : β)
    (hnone : l.lookup h = none) : (l ++ [(h, v)]).lookup h = some v := by
  induction l with
  | nil => simp [List.lookup]
  | cons kv rest ih =>
    obtain ⟨k, w⟩ := kv
    by_cases hk : h == k
    · simp [List.lookup, hk] at hnone
    · simp only [List.cons_append, List.lookup, hk] at hnone ⊢
      exact ih hnone

/-- C8: within one session, the first cache query for a hostname runs
the validator once and stores the decision; a later query for the same
hostname returns the stored decision with zero validator runs, so the
two decisions can never diverge. -/
theorem C8_session_cache (resolve : Resolver) (cache : HostCache) (h : String) :
    (cache.lookup h = none →
      (get_or_validate resolve cache h).2.2 = 1 ∧
      (get_or_validate resolve cache h).1 = _is_public_host resolve h ∧
      ((get_or_validate resolve cache h).2.1.lookup h
        = some (get_or_validate resolve cache h).1) ∧
      get_or_validate resolve (get_or_validate resolve cache h).2.1 h
        = ((get_or_validate resolve cache h).1, (get_or_validate resolve cache h).2.1, 0))
    ∧ (∀ d, cache.lookup h = some d → get_or_validate resolve cache h = (d, cache, 0)) := by
  constructor
  · intro hmiss
    have h1 : get_or_validate resolve cache h
        = (_is_public_host resolve h, cache ++ [(h, _is_public_host resolve h)], 1) := by
      simp [get_or_validate, hmiss]
    have h2 : (cache ++ [(h, _is_public_host resolve h)]).lookup h
        = some (_is_public_host resolve h) := lookup_append_singleton cache h _ hmiss
    rw [h1]
    refine ⟨rfl, rfl, h2, ?_⟩
    simp [get_or_validate, h2]
  · intro d hhit
    simp [get_or_validate, hhit]

/-- Witness for C8: a miss resolves once; the immediate second query is
answered from the cache with zero resolver runs and the same decision. -/
theorem C8_session_cache_witness :
    (get_or_validate (fun _ => Except.ok ["93.184.216.34"]) [] "example.com").2.2 = 1 ∧
    get_or_validate (fun _ => Except.ok ["93.184.216.34"])
        (get_or_validate (fun _ => Except.ok ["93.184.216.34"]) [] "example.com").2.1
        "example.com"
      = ((get_or_validate (fun _ => Except.ok ["93.184.216.34"]) [] "example.com").1,
         (get_or_validate (fun _ => Except.ok ["93.184.216.34"]) [] "example.com").2.1, 0) := by
  have hmain := (C8_session_cache (fun _ => Except.ok ["93.184.216.34"]) [] "example.com").1
    (by decide)
  exact ⟨hmain.1, hmain.2.2.2⟩

/-- The host-cache decision the gate consults: the cached value when
present, a fresh validation otherwise. -/
def cacheDecision (resolve : Resolver) (cache : HostCache) (h : String) : Bool × String :=
  (cache.lookup h).getD (_is_public_host resolve h)

/-- C3: the request gate allows data/blob/about requests unconditionally
(cache untouched, resolver irrelevant); blocks requests whose scheme is
neither one of those nor http/https, and http/https requests without a
hostname; and allows a remaining request exactly when the shared
host-cache decision for its hostname is Allowed. -/
theorem C3_request_gate (resolve resolve2 : Resolver) (cache : HostCache) (url : String) :
    (((urlparse url "").scheme = "data" ∨ (urlparse url "").scheme = "blob" ∨
        (urlparse url "").scheme = "about") →
      (∀ cache2 : HostCache, route_handler resolve cache2 url = (RouteAction.allow, cache2)) ∧
      route_handler resolve cache url = route_handler resolve2 cache url)
    ∧ (((urlparse url "").scheme ∉ (["data", "blob", "about"] : List String) ∧
        ((urlparse url "").scheme ∉ (["http", "https"] : List String) ∨
          splitHostname (urlparse url "") = none)) →
        route_handler resolve cache url = (RouteAction.abort, cache))
    ∧ (∀ h, ((urlparse url "").scheme = "http" ∨ (urlparse url "").scheme = "https") →
        splitHostname (urlparse url "") = some h →
        ((route_handler resolve cache url).1 = RouteAction.allow ↔
          (cacheDecision resolve cache h).1 = true)) := by
  refine ⟨?_, ?_, ?_⟩
  · intro hsch
    constructor
    · intro cache2
      rcases hsch with h' | h' | h' <;> simp [route_handler, h']
    · rcases hsch with h' | h' | h' <;> simp [route_handler, h']
  · rintro ⟨h3, hbad⟩
    simp only [List.mem_cons, List.mem_singleton, not_or] at h3
    obtain ⟨hd, hb, ha⟩ := h3
    have hnot : ¬((urlparse url "").scheme = "data" ∨ (urlparse url "").scheme = "blob" ∨
        (urlparse url "").scheme = "about") := by
      simp [hd, hb, ha]
    rcases hbad with hsch | hhost
    · simp only [List.mem_cons, List.mem_singleton, not_or] at hsch
      simp [route_handler, hnot, hsch.1, hsch.2]
    · simp [route_handler, hnot, hhost]
  · intro h hsch hhost
    have hnot : ¬((urlparse url "").scheme = "data" ∨ (urlparse url "").scheme = "blob" ∨
        (urlparse url "").scheme = "about") := by
      rcases hsch with h' | h' <;> simp [h']
    have hok : ¬((urlparse url "").scheme ≠ "http" ∧ (urlparse url "").scheme ≠ "https") := by
      rcases hsch with h' | h' <;> simp [h']
    cases hc : cache.lookup h with
    | some d =>
      have : get_or_validate resolve cache h = (d, cache, 0) := by
        simp [get_or_validate, hc]
      cases hd : d.1 <;>
        simp [route_handler, hnot, hok, hhost, this, hd, cacheDecision, hc]
    | none =>
      have : get_or_validate resolve cache h
          = (_is_public_host resolve h, cache ++ [(h, _is_public_host resolve h)], 1) := by
        simp [get_or_validate, hc]
      cases hd : (_is_public_host resolve h).1 <;>
        simp [route_handler, hnot, hok, hhost, this, hd, cacheDecision, hc]

/-- Witness for C3: a data URL is allowed with the cache unchanged under
two different resolvers; an http request is allowed exactly as its
cached decision says. -/
theorem C3_request_gate_witness :
    route_handler (fun _ => Except.error "boom") [("x", (true, ""))] "data:text/html,hi"
      = (RouteAction.allow, [("x", (true, ""))]) ∧
    ((route_handler (fun _ => Except.error "boom")
        [("example.com", (false, "cached block"))] "http://example.com/a").1
      = RouteAction.allow ↔ False) := by
  constructor
  · exact ((C3_request_gate (fun _ => Except.error "boom") (fun _ => Except.error "x")
      [("x", (true, ""))] "data:text/html,hi").1 (by decide)).1 [("x", (true, ""))]
  · rw [(C3_request_gate (fun _ => Except.error "boom") (fun _ => Except.error "x")
      [("example.com", (false, "cached block"))] "http://example.com/a").2.2
      "example.com" (by decide) (by decide)]
    simp [cacheDecision]

/-- Dropping a satisfied run twice equals dropping it once. -/
theorem dropWhile_dropWhile (p : Char → Bool) (l : List Char) :
    (l.dropWhile p).dropWhile p = l.dropWhile p := by
  induction l with
  | nil => rfl
  | cons a t ih =>
    by_cases ha : p a
    · simp [List.dropWhile_cons, ha, ih]
    · simp [List.dropWhile_cons, ha]

/-- The head surviving a `dropWhile` fails the test. -/
theorem dropWhile_head_false (p : Char → Bool) (l : List Char) :
    ∀ c, (l.dropWhile p).head? = some c → p c = false := by
  induction l with
  | nil =>
    intro c hc
    cases hc
  | cons a t ih =>
    intro c hc
    by_cases ha : p a
    · rw [List.dropWhile_cons, if_pos ha] at hc
      exact ih c hc
    · rw [List.dropWhile_cons, if_neg ha] at hc
      rw [List.head?_cons] at hc
      injection hc with hac
      subst hac
      simpa using ha

/-- `dropWhile` is the identity when the head fails the test. -/
theorem dropWhile_eq_self_of_head (p : Char → Bool) (l : List Char)
    (hl : ∀ c, l.head? = some c → p c = false) : l.dropWhile p = l := by
  cases l with
  | nil => rfl
  | cons a t => rw [List.dropWhile_cons, if_neg (by simp [hl a rfl])]

/-- Two lists in the initial-segment relation share their head. -/
theorem head?_of_isPrefix {l₁ l₂ : List Char} (h : l₁ <+: l₂) (hne : l₁ ≠ []) :
    l₁.head? = l₂.head? := by
  obtain ⟨t, rfl⟩ := h
  cases l₁ with
  | nil => exact absurd rfl hne
  | cons a t' => rfl

/-- Python `strip` is idempotent, on lists. -/
theorem pyStripL_idem (l : List Char) : pyStripL (pyStripL l) = pyStripL l := by
  unfold pyStripL
  set m := l.dropWhile isPyWhitespace with hm
  set S := m.reverse.dropWhile isPyWhitespace with hS
  have h1 : S.reverse.dropWhile isPyWhitespace = S.reverse := by
    apply dropWhile_eq_self_of_head
    intro c hc
    have hsuf : S <:+ m.reverse := by
      rw [hS]
      exact List.dropWhile_suffix _
    have hpre : S.reverse <+: m := by
      have h' : S.reverse <+: m.reverse.reverse := List.reverse_prefix.mpr hsuf
      rwa [List.reverse_reverse] at h'
    have hne : S.reverse ≠ [] := by
      intro h0
      rw [h0] at hc
      cases hc
    rw [head?_of_isPrefix hpre hne] at hc
    rw [hm] at hc
    exact dropWhile_head_false isPyWhitespace l c hc
  rw [h1, List.reverse_reverse]
  rw [show S.dropWhile isPyWhitespace = S from by rw [hS]; exact dropWhile_dropWhile _ _]

/-- `toList` undoes `asString`. -/
theorem toList_asString (l : List Char) : (l.asString).toList = l := rfl

/-- Python `strip` is idempotent. -/
theorem pyStrip_idem (s : String) : pyStrip (pyStrip s) = pyStrip s := by
  unfold pyStrip
  rw [toList_asString, pyStripL_idem]

/-- After the https-defaulting step of `_validate_url`, the parsed
scheme is exactly https, whatever the remainder text is. -/
theorem urlparse_https_scheme (u : String) :
    (urlparse ("https://" ++ u) "").scheme = "https" := by
  have hdata : ("https://" ++ u).toList
      = 'h' :: 't' :: 't' :: 'p' :: 's' :: ':' :: '/' :: '/' ::u.toList := by
    show ("https://" ++ u).data = _
    rw [String.data_append]
    rfl
  have hs : (urlsplitL (('h' :: 't' :: 't' :: 'p' :: 's' :: ':' :: '/' :: '/' ::u.toList))
      (("" : String).toList)).scheme = "https".toList := rfl
  simp only [urlparse]
  rw [hdata]
  split <;> rw [hs] <;> rfl

/-- The normalized URL text `_validate_url` works with: stripped, and
prefixed with `https://` when `urlparse` found no scheme. -/
def normalizedUrl (raw : String) : String :=
  if (urlparse (pyStrip raw) "").scheme = "" then "https://" ++ pyStrip raw
  else pyStrip raw

/-- `_validate_url` is `validateParsed` at the normalized URL. -/
theorem validate_url_eq_norm (resolve : Resolver) (raw : String) :
    _validate_url resolve raw
      = validateParsed resolve (normalizedUrl raw) (urlparse (normalizedUrl raw) "") := by
  by_cases hsch : (urlparse (pyStrip raw) "").scheme = ""
  · simp [_validate_url, normalizedUrl, hsch]
  · simp [_validate_url, normalizedUrl, hsch]

/-- C7: `_validate_url` strips surrounding whitespace; defaults the
scheme to https when `urlparse` found none; rejects a scheme other than
exactly http or https with an invalid-scheme reason (in particular
`ftp://example.com`); rejects a missing hostname; propagates a Blocked
host reason unchanged; and otherwise returns the normalized URL. -/
theorem C7_validate_url (resolve : Resolver) (raw : String) :
    (_validate_url resolve raw = _validate_url resolve (pyStrip raw))
    ∧ ((urlparse (pyStrip raw) "").scheme = "" →
        (urlparse (normalizedUrl raw) "").scheme = "https")
    ∧ ((urlparse (normalizedUrl raw) "").scheme ≠ "http" →
        (urlparse (normalizedUrl raw) "").scheme ≠ "https" →
        _validate_url resolve raw
          = (none, some ("Invalid URL scheme: " ++ (urlparse (normalizedUrl raw) "").scheme)))
    ∧ (((urlparse (normalizedUrl raw) "").scheme = "http" ∨
        (urlparse (normalizedUrl raw) "").scheme = "https") →
        splitHostname (urlparse (normalizedUrl raw) "") = none →
        _validate_url resolve raw = (none, some "Invalid URL: missing hostname"))
    ∧ (∀ h reason, ((urlparse (normalizedUrl raw) "").scheme = "http" ∨
        (urlparse (normalizedUrl raw) "").scheme = "https") →
        splitHostname (urlparse (normalizedUrl raw) "") = some h →
        _is_public_host resolve h = (false, reason) →
        _validate_url resolve raw = (none, some reason))
    ∧ (∀ h, ((urlparse (normalizedUrl raw) "").scheme = "http" ∨
        (urlparse (normalizedUrl raw) "").scheme = "https") →
        splitHostname (urlparse (normalizedUrl raw) "") = some h →
        (_is_public_host resolve h).1 = true →
        _validate_url resolve raw = (some (normalizedUrl raw), none))
    ∧ (_validate_url resolve "ftp://example.com" = (none, some "Invalid URL scheme: ftp")) := by
  refine ⟨?_, ?_, ?_, ?_, ?_, ?_, rfl⟩
  · simp only [_validate_url, pyStrip_idem]
  · intro h
    rw [normalizedUrl, if_pos h]
    exact urlparse_https_scheme _
  · intro h1 h2
    rw [validate_url_eq_norm]
    simp [validateParsed, h1, h2]
  · intro hs hh
    rw [validate_url_eq_norm]
    rcases hs with h' | h' <;> simp [validateParsed, h', hh]
  · intro h reason hs hh hpub
    rw [validate_url_eq_norm]
    rcases hs with h' | h' <;> simp [validateParsed, h', hh, hpub]
  · intro h hs hh hpub
    rw [validate_url_eq_norm]
    rcases hs with h' | h' <;> simp [validateParsed, h', hh, hpub]

/-- Witness for C7: a scheme-less public URL is normalized to https and
accepted. -/
theorem C7_validate_url_witness :
    _validate_url (fun _ => Except.ok ["93.184.216.34"]) "  example.com/path  "
      = (some "https://example.com/path", none) := by
  have h := (C7_validate_url (fun _ => Except.ok ["93.184.216.34"])
      "  example.com/path  ").2.2.2.2.2.1 "example.com"
      (Or.inr (by decide)) (by decide) (by decide)
  rw [h]
  decide

/-- C10: a scheme-less input with a colon before the first slash is not
https-defaulted: `urlparse` reports the text before the colon as a
(non-empty) scheme, so the input is rejected with an invalid-scheme
reason; the defaulting fires only when the parsed scheme is empty. -/
theorem C10_colon_port_not_defaulted (resolve : Resolver) (raw : String) :
    ((urlparse (pyStrip raw) "").scheme ≠ "" →
      (urlparse (pyStrip raw) "").scheme ≠ "http" →
      (urlparse (pyStrip raw) "").scheme ≠ "https" →
      _validate_url resolve raw
        = (none, some ("Invalid URL scheme: " ++ (urlparse (pyStrip raw) "").scheme)))
    ∧ _validate_url resolve "example.com:8080/path"
        = (none, some "Invalid URL scheme: example.com")
    ∧ _validate_url resolve "localhost:8080"
        = (none, some "Invalid URL scheme: localhost") := by
  refine ⟨?_, rfl, rfl⟩
  intro h0 h1 h2
  have hn : normalizedUrl raw = pyStrip raw := by
    rw [normalizedUrl, if_neg h0]
  rw [validate_url_eq_norm, hn]
  simp [validateParsed, h1, h2]

/-- Witness for C10 at the concrete port-looking input. -/
theorem C10_colon_port_not_defaulted_witness :
    _validate_url (fun _ => Except.error "unused") "example.com:8080/path"
      = (none, some ("Invalid URL scheme: "
          ++ (urlparse (pyStrip "example.com:8080/path") "").scheme)) :=
  (C10_colon_port_not_defaulted (fun _ => Except.error "unused") "example.com:8080/path").1
    (by decide) (by decide) (by decide)

/-- The parsed hostname of a URL string. -/
def hostOf (s : String) : Option String := splitHostname (urlparse s "")

/-- One valid redirect hop for the loop: the response for `a` is a
redirect whose Location `loc` joins to `b`, and `b` is an http(s) URL
with a hostname the validator allows. -/
def goodHopB (http : String → HttpResponse) (resolve : Resolver) (a loc b : String) : Bool :=
  (http a).is_redirect &&
  (headersGet (http a).headers "Location" == some loc) &&
  (!(loc == "")) &&
  (urljoin a loc == b) &&
  (((urlparse b "").scheme == "http") || ((urlparse b "").scheme == "https")) &&
  (hostOf b).isSome &&
  (_is_public_host resolve ((hostOf b).getD "")).1

/-- A valid terminal step: the response is not a redirect, and its final
URL passes the re-check (hostname absent, or validated public). -/
def goodFinalB (http : String → HttpResponse) (resolve : Resolver) (a : String) : Bool :=
  !(http a).is_redirect &&
  (match hostOf (http a).url with
   | some h => (_is_public_host resolve h).1
   | none => true)

/-- One loop iteration across a valid redirect hop. -/
theorem fetchLoop_hop (http : String → HttpResponse) (resolve : Resolver)
    (maxRed : Nat) (origUrl : String) (fuel : Nat) (a loc1 b : String)
    (chain trace : List String)
    (hg : goodHopB http resolve a loc1 b = true) :
    fetchLoop http resolve true maxRed origUrl (fuel + 1) a chain trace
      = fetchLoop http resolve true maxRed origUrl fuel b (chain ++ [b]) (trace ++ [a]) := by
  simp only [goodHopB, Bool.and_eq_true, beq_iff_eq, Bool.or_eq_true, Bool.not_eq_true',
    beq_eq_false_iff_ne, ne_eq] at hg
  obtain ⟨⟨⟨⟨⟨⟨h1, h2⟩, h3⟩, h4⟩, h5⟩, h6⟩, h7⟩ := hg
  rw [Option.isSome_iff_exists] at h6
  obtain ⟨hh, hhh⟩ := h6
  rw [hostOf] at hhh
  rw [hostOf, hhh] at h7
  simp only [Option.getD_some] at h7
  simp only [fetchLoop]
  rw [if_neg (by simp [h1])]
  rw [h2]
  simp only []
  rw [if_neg h3, h4]
  rw [if_neg (by rcases h5 with h' | h' <;> simp [h', hhh])]
  rw [hhh]
  simp only [Option.getD_some]
  rw [if_neg (by simp [h7])]

/-- One loop iteration at a valid terminal response. -/
theorem fetchLoop_final (http : String → HttpResponse) (resolve : Resolver)
    (maxRed : Nat) (origUrl : String) (fuel : Nat) (a : String)
    (chain trace : List String)
    (hf : goodFinalB http resolve a = true) :
    fetchLoop http resolve true maxRed origUrl (fuel + 1) a chain trace
      = (okResult (http a) chain, trace ++ [a]) := by
  simp only [goodFinalB, Bool.and_eq_true, Bool.not_eq_true'] at hf
  obtain ⟨h1, h2⟩ := hf
  simp only [fetchLoop]
  rw [if_pos (Or.inr h1)]
  cases hh : splitHostname (urlparse (http a).url "") with
  | some h =>
    rw [hostOf, hh] at h2
    have h2x : (_is_public_host resolve h).1 = true := h2
    simp [finalizeResponse, hh, h2x]
  | none => simp [finalizeResponse, hh]

/-- One loop iteration at a terminal response, whatever its final URL. -/
theorem fetchLoop_terminal (http : String → HttpResponse) (resolve : Resolver)
    (maxRed : Nat) (origUrl : String) (fuel : Nat) (a : String)
    (chain trace : List String) (h1 : (http a).is_redirect = false) :
    fetchLoop http resolve true maxRed origUrl (fuel + 1) a chain trace
      = (finalizeResponse resolve origUrl (http a) chain, trace ++ [a]) := by
  simp only [fetchLoop]
  rw [if_pos (Or.inr h1)]

/-- One loop iteration at a redirect whose Location header is absent. -/
theorem fetchLoop_missing_location (http : String → HttpResponse) (resolve : Resolver)
    (maxRed : Nat) (origUrl : String) (fuel : Nat) (a : String)
    (chain trace : List String)
    (h1 : (http a).is_redirect = true)
    (h2 : headersGet (http a).headers "Location" = none) :
    fetchLoop http resolve true maxRed origUrl (fuel + 1) a chain trace
      = (errResult origUrl "Redirect response missing Location header", trace ++ [a]) := by
  simp only [fetchLoop]
  rw [if_neg (by simp [h1])]
  rw [h2]

/-- One loop iteration at a redirect whose target host is blocked. -/
theorem fetchLoop_blocked_target (http : String → HttpResponse) (resolve : Resolver)
    (maxRed : Nat) (origUrl : String) (fuel : Nat) (a loc1 t h reason : String)
    (chain trace : List String)
    (h1 : (http a).is_redirect = true)
    (h2 : headersGet (http a).headers "Location" = some loc1)
    (h3 : loc1 ≠ "")
    (h4 : urljoin a loc1 = t)
    (h5 : (urlparse t "").scheme = "http" ∨ (urlparse t "").scheme = "https")
    (h6 : splitHostname (urlparse t "") = some h)
    (h7 : _is_public_host resolve h = (false, reason)) :
    fetchLoop http resolve true maxRed origUrl (fuel + 1) a chain trace
      = (errResult origUrl ("Blocked redirect target: " ++ reason), trace ++ [a]) := by
  simp only [fetchLoop]
  rw [if_neg (by simp [h1])]
  rw [h2]
  simp only []
  rw [if_neg h3, h4]
  rw [if_neg (by rcases h5 with h' | h' <;> simp [h', h6])]
  rw [h6]
  simp only [Option.getD_some]
  rw [h7]
  simp

/-- Peeling the front element of a mapped range. -/
theorem range_map_succ_front (f : Nat → String) (j : Nat) :
    (List.range (j + 1)).map f = f 0 :: (List.range j).map (fun i => f (i + 1)) := by
  rw [List.range_succ_eq_map]
  simp [List.map_map, Function.comp, Nat.succ_eq_add_one]

/-- Walking `j` valid redirect hops consumes `j` fuel, extends the
realized chain with the `j` targets, and records the `j` requests. -/
theorem fetchLoop_steps (http : String → HttpResponse) (resolve : Resolver)
    (maxRed : Nat) (origUrl : String) (j : Nat) :
    ∀ (u loc : Nat → String) (chain trace : List String) (fuel : Nat),
      (∀ i, i < j → goodHopB http resolve (u i) (loc i) (u (i + 1)) = true) →
      fetchLoop http resolve true maxRed origUrl (fuel + j) (u 0) chain trace
        = fetchLoop http resolve true maxRed origUrl fuel (u j)
            (chain ++ (List.range j).map (fun i => u (i + 1)))
            (trace ++ (List.range j).map (fun i => u i)) := by
  induction j with
  | zero =>
    intro u loc chain trace fuel _
    simp
  | succ j ih =>
    intro u loc chain trace fuel hg
    have hstep := fetchLoop_hop http resolve maxRed origUrl (fuel + j) (u 0) (loc 0) (u 1)
      chain trace (hg 0 (Nat.succ_pos j))
    rw [show fuel + (j + 1) = (fuel + j) + 1 from rfl, hstep]
    have ih' := ih (fun i => u (i + 1)) (fun i => loc (i + 1)) (chain ++ [u 1])
      (trace ++ [u 0]) fuel (fun i hi => hg (i + 1) (Nat.succ_lt_succ hi))
    rw [ih']
    rw [range_map_succ_front (fun i => u (i + 1)) j, range_map_succ_front (fun i => u i) j]
    simp [List.append_assoc]

/-- C4: with a validated start, a chain of exactly `max_redirects` valid
hops to public hosts followed by a terminal response succeeds with a
redirect chain of length `max_redirects`; a chain that is still
redirecting after `max_redirects + 1` responses fails with the error
"Too many redirects (max N)". -/
theorem C4_redirect_budget (http : String → HttpResponse) (resolve : Resolver)
    (maxRed : Nat) (u loc : Nat → String) :
    (_validate_url resolve (u 0) = (some (u 0), none) →
      (∀ i, i < maxRed → goodHopB http resolve (u i) (loc i) (u (i + 1)) = true) →
      goodFinalB http resolve (u maxRed) = true →
      (fetch_page http resolve (u 0) true maxRed).1.error = none ∧
      (fetch_page http resolve (u 0) true maxRed).1.redirect_chain
        = (List.range maxRed).map (fun i => u (i + 1)) ∧
      (fetch_page http resolve (u 0) true maxRed).1.redirect_chain.length = maxRed)
    ∧ (_validate_url resolve (u 0) = (some (u 0), none) →
      (∀ i, i < maxRed + 1 → goodHopB http resolve (u i) (loc i) (u (i + 1)) = true) →
      (fetch_page http resolve (u 0) true maxRed).1.error
        = some ("Too many redirects (max " ++ toString maxRed ++ ")")) := by
  constructor
  · intro hv hhops hfin
    have hfp : fetch_page http resolve (u 0) true maxRed
        = fetchLoop http resolve true maxRed (u 0) (maxRed + 1) (u 0) [] [] := by
      simp [fetch_page, hv]
    have hsteps := fetchLoop_steps http resolve maxRed (u 0) maxRed u loc [] [] 1 hhops
    have hfinal := fetchLoop_final http resolve maxRed (u 0) 0 (u maxRed)
      ([] ++ (List.range maxRed).map (fun i => u (i + 1)))
      ([] ++ (List.range maxRed).map (fun i => u i)) hfin
    rw [hfp, show maxRed + 1 = 1 + maxRed from Nat.add_comm _ _, hsteps, hfinal]
    simp [okResult]
  · intro hv hhops
    have hfp : fetch_page http resolve (u 0) true maxRed
        = fetchLoop http resolve true maxRed (u 0) (maxRed + 1) (u 0) [] [] := by
      simp [fetch_page, hv]
    have hsteps := fetchLoop_steps http resolve maxRed (u 0) (maxRed + 1) u loc [] [] 0 hhops
    rw [hfp, show maxRed + 1 = 0 + (maxRed + 1) from (Nat.zero_add _).symm, hsteps]
    rfl

/-- Witness for C4: a two-hop public chain succeeds under budget 2 and
overflows budget 1. -/
theorem C4_redirect_budget_witness :
    ((fetch_page
        (fun s => if s = "http://93.184.216.34/" then
            ⟨s, 301, true, [("Location", "http://93.184.216.35/a")], ""⟩
          else if s = "http://93.184.216.35/a" then
            ⟨s, 301, true, [("Location", "http://93.184.216.36/b")], ""⟩
          else ⟨s, 200, false, [], "done"⟩)
        (fun _ => Except.error "unused") "http://93.184.216.34/" true 2).1.error = none ∧
      (fetch_page
        (fun s => if s = "http://93.184.216.34/" then
            ⟨s, 301, true, [("Location", "http://93.184.216.35/a")], ""⟩
          else if s = "http://93.184.216.35/a" then
            ⟨s, 301, true, [("Location", "http://93.184.216.36/b")], ""⟩
          else ⟨s, 200, false, [], "done"⟩)
        (fun _ => Except.error "unused") "http://93.184.216.34/" true 2).1.redirect_chain.length = 2)
    ∧ (fetch_page
        (fun s => if s = "http://93.184.216.34/" then
            ⟨s, 301, true, [("Location", "http://93.184.216.35/a")], ""⟩
          else if s = "http://93.184.216.35/a" then
            ⟨s, 301, true, [("Location", "http://93.184.216.36/b")], ""⟩
          else ⟨s, 200, false, [], "done"⟩)
        (fun _ => Except.error "unused") "http://93.184.216.34/" true 1).1.error
      = some "Too many redirects (max 1)" := by
  refine ⟨⟨?_, ?_⟩, ?_⟩
  · exact ((C4_redirect_budget
      (fun s => if s = "http://93.184.216.34/" then
          ⟨s, 301, true, [("Location", "http://93.184.216.35/a")], ""⟩
        else if s = "http://93.184.216.35/a" then
          ⟨s, 301, true, [("Location", "http://93.184.216.36/b")], ""⟩
        else ⟨s, 200, false, [], "done"⟩)
      (fun _ => Except.error "unused") 2
      (fun i => ["http://93.184.216.34/", "http://93.184.216.35/a",
        "http://93.184.216.36/b"].getD i "")
      (fun i => ["http://93.184.216.35/a", "http://93.184.216.36/b"].getD i "")).1
      (by decide) (by decide) (by decide)).1
  · exact ((C4_redirect_budget
      (fun s => if s = "http://93.184.216.34/" then
          ⟨s, 301, true, [("Location", "http://93.184.216.35/a")], ""⟩
        else if s = "http://93.184.216.35/a" then
          ⟨s, 301, true, [("Location", "http://93.184.216.36/b")], ""⟩
        else ⟨s, 200, false, [], "done"⟩)
      (fun _ => Except.error "unused") 2
      (fun i => ["http://93.184.216.34/", "http://93.184.216.35/a",
        "http://93.184.216.36/b"].getD i "")
      (fun i => ["http://93.184.216.35/a", "http://93.184.216.36/b"].getD i "")).1
      (by decide) (by decide) (by decide)).2.2
  · exact (C4_redirect_budget
      (fun s => if s = "http://93.184.216.34/" then
          ⟨s, 301, true, [("Location", "http://93.184.216.35/a")], ""⟩
        else if s = "http://93.184.216.35/a" then
          ⟨s, 301, true, [("Location", "http://93.184.216.36/b")], ""⟩
        else ⟨s, 200, false, [], "done"⟩)
      (fun _ => Except.error "unused") 1
      (fun i => ["http://93.184.216.34/", "http://93.184.216.35/a",
        "http://93.184.216.36/b"].getD i "")
      (fun i => ["http://93.184.216.35/a", "http://93.184.216.36/b"].getD i "")).2
      (by decide) (by decide)

/-- Counterexample for C5 as stated: in the scenario of the spec (hop 2
of 3 targets 10.0.0.5) the error text is fully determined and contains
no digit 2 or 3 at all, so it cannot reference the offending hop index;
the blocked target is nonetheless never requested. -/
theorem C5_hop_index_counterexample :
    (fetch_page
        (fun s => if s = "http://93.184.216.34/" then
            ⟨s, 301, true, [("Location", "http://93.184.216.35/a")], ""⟩
          else if s = "http://93.184.216.35/a" then
            ⟨s, 301, true, [("Location", "http://10.0.0.5/")], ""⟩
          else ⟨s, 200, false, [], "done"⟩)
        (fun _ => Except.error "unused") "http://93.184.216.34/" true 5).1.error
      = some "Blocked redirect target: Blocked non-public IP: 10.0.0.5" ∧
    '2' ∉ "Blocked redirect target: Blocked non-public IP: 10.0.0.5".toList ∧
    '3' ∉ "Blocked redirect target: Blocked non-public IP: 10.0.0.5".toList ∧
    (fetch_page
        (fun s => if s = "http://93.184.216.34/" then
            ⟨s, 301, true, [("Location", "http://93.184.216.35/a")], ""⟩
          else if s = "http://93.184.216.35/a" then
            ⟨s, 301, true, [("Location", "http://10.0.0.5/")], ""⟩
          else ⟨s, 200, false, [], "done"⟩)
        (fun _ => Except.error "unused") "http://93.184.216.34/" true 5).2
      = ["http://93.184.216.34/", "http://93.184.216.35/a"] := by
  decide

/-- C5 (amended): when hop `b` of a chain redirects to a target whose
host the validator blocks, `fetch_page` fails with
"Blocked redirect target: {reason}" — the reason names the offending
target, not the hop index — and the requests issued are exactly the
hops before the block, so neither the blocked target nor any later hop
is requested; a redirect without a Location header fails with
"Redirect response missing Location header". -/
theorem C5_blocked_redirect_target (http : String → HttpResponse) (resolve : Resolver)
    (maxRed b : Nat) (u loc : Nat → String)
    (hb : b ≤ maxRed)
    (hv : _validate_url resolve (u 0) = (some (u 0), none))
    (hhops : ∀ i, i < b → goodHopB http resolve (u i) (loc i) (u (i + 1)) = true) :
    (∀ t h reason, (http (u b)).is_redirect = true →
      headersGet (http (u b)).headers "Location" = some (loc b) →
      loc b ≠ "" →
      urljoin (u b) (loc b) = t →
      ((urlparse t "").scheme = "http" ∨ (urlparse t "").scheme = "https") →
      splitHostname (urlparse t "") = some h →
      _is_public_host resolve h = (false, reason) →
      (fetch_page http resolve (u 0) true maxRed).1.error
        = some ("Blocked redirect target: " ++ reason) ∧
      (fetch_page http resolve (u 0) true maxRed).2
        = (List.range (b + 1)).map (fun i => u i))
    ∧ ((http (u b)).is_redirect = true →
      headersGet (http (u b)).headers "Location" = none →
      (fetch_page http resolve (u 0) true maxRed).1.error
        = some "Redirect response missing Location header" ∧
      (fetch_page http resolve (u 0) true maxRed).2
        = (List.range (b + 1)).map (fun i => u i)) := by
  have hfp : fetch_page http resolve (u 0) true maxRed
      = fetchLoop http resolve true maxRed (u 0) (maxRed + 1) (u 0) [] [] := by
    simp [fetch_page, hv]
  have hfuel : maxRed + 1 = (maxRed - b + 1) + b := by omega
  have hsteps := fetchLoop_steps http resolve maxRed (u 0) b u loc [] [] (maxRed - b + 1) hhops
  constructor
  · intro t h reason h1 h2 h3 h4 h5 h6 h7
    have hblk := fetchLoop_blocked_target http resolve maxRed (u 0) (maxRed - b) (u b) (loc b)
      t h reason ([] ++ (List.range b).map (fun i => u (i + 1)))
      ([] ++ (List.range b).map (fun i => u i)) h1 h2 h3 h4 h5 h6 h7
    rw [hfp, hfuel, hsteps, hblk]
    exact ⟨rfl, by simp [List.range_succ]⟩
  · intro h1 h2
    have hmiss := fetchLoop_missing_location http resolve maxRed (u 0) (maxRed - b) (u b)
      ([] ++ (List.range b).map (fun i => u (i + 1)))
      ([] ++ (List.range b).map (fun i => u i)) h1 h2
    rw [hfp, hfuel, hsteps, hmiss]
    exact ⟨rfl, by simp [List.range_succ]⟩

/-- Witness for the amended C5 at the concrete 10.0.0.5 scenario. -/
theorem C5_blocked_redirect_target_witness :
    (fetch_page
        (fun s => if s = "http://93.184.216.34/" then
            ⟨s, 301, true, [("Location", "http://93.184.216.35/a")], ""⟩
          else if s = "http://93.184.216.35/a" then
            ⟨s, 301, true, [("Location", "http://10.0.0.5/")], ""⟩
          else ⟨s, 200, false, [], "done"⟩)
        (fun _ => Except.error "unused") "http://93.184.216.34/" true 5).1.error
      = some ("Blocked redirect target: " ++ "Blocked non-public IP: 10.0.0.5") ∧
    (fetch_page
        (fun s => if s = "http://93.184.216.34/" then
            ⟨s, 301, true, [("Location", "http://93.184.216.35/a")], ""⟩
          else if s = "http://93.184.216.35/a" then
            ⟨s, 301, true, [("Location", "http://10.0.0.5/")], ""⟩
          else ⟨s, 200, false, [], "done"⟩)
        (fun _ => Except.error "unused") "http://93.184.216.34/" true 5).2
      = ["http://93.184.216.34/", "http://93.184.216.35/a"] := by
  have h := (C5_blocked_redirect_target
      (fun s => if s = "http://93.184.216.34/" then
          ⟨s, 301, true, [("Location", "http://93.184.216.35/a")], ""⟩
        else if s = "http://93.184.216.35/a" then
          ⟨s, 301, true, [("Location", "http://10.0.0.5/")], ""⟩
        else ⟨s, 200, false, [], "done"⟩)
      (fun _ => Except.error "unused") 5 1
      (fun i => ["http://93.184.216.34/", "http://93.184.216.35/a"].getD i "")
      (fun i => ["http://93.184.216.35/a", "http://10.0.0.5/"].getD i "")
      (by omega) (by decide) (by decide)).1
    "http://10.0.0.5/" "10.0.0.5" "Blocked non-public IP: 10.0.0.5"
    (by decide) (by decide) (by decide) (by decide) (Or.inl (by decide)) (by decide) (by decide)
  exact ⟨h.1, h.2⟩

/-- Counterexample for C6 as stated: a terminal response whose final URL
has no parsed hostname is returned as a success, with no error — the
re-validation is skipped for it, not applied to it. -/
theorem C6_unvalidated_final_url_counterexample :
    splitHostname (urlparse "http:///x" "") = none ∧
    (fetch_page (fun _ => ⟨"http:///x", 200, false, [], "ok"⟩)
        (fun _ => Except.error "nx") "http://93.184.216.34/" true 5).1.error = none ∧
    (fetch_page (fun _ => ⟨"http:///x", 200, false, [], "ok"⟩)
        (fun _ => Except.error "nx") "http://93.184.216.34/" true 5).1.url = "http:///x" ∧
    (fetch_page (fun _ => ⟨"http:///x", 200, false, [], "ok"⟩)
        (fun _ => Except.error "nx") "http://93.184.216.34/" true 5).1.status_code
      = some 200 := by
  decide

/-- C6 (amended): for a terminal response in `fetch_page`, the final
URL is re-validated through the public-host check exactly when its
parsed hostname is present: a present, blocked hostname yields
"Blocked final URL: {reason}" with no success payload; a present, public
hostname yields the success payload; an absent hostname is returned as
success with no re-validation.  The browser-path
`_validate_final_page_url`, by contrast, blocks a hostname-less URL. -/
theorem C6_final_url_check (http : String → HttpResponse) (resolve : Resolver)
    (maxRed : Nat) (url : String)
    (hv : _validate_url resolve url = (some url, none))
    (hnr : (http url).is_redirect = false) :
    (∀ h reason, splitHostname (urlparse (http url).url "") = some h →
      _is_public_host resolve h = (false, reason) →
      (fetch_page http resolve url true maxRed).1
        = errResult url ("Blocked final URL: " ++ reason))
    ∧ (∀ h, splitHostname (urlparse (http url).url "") = some h →
      (_is_public_host resolve h).1 = true →
      (fetch_page http resolve url true maxRed).1 = okResult (http url) [])
    ∧ (splitHostname (urlparse (http url).url "") = none →
      (fetch_page http resolve url true maxRed).1 = okResult (http url) [])
    ∧ (∀ purl, splitHostname (urlparse purl "") = none →
      _validate_final_page_url resolve purl = (false, "Blocked final URL: " ++ purl)) := by
  have hfp : fetch_page http resolve url true maxRed
      = fetchLoop http resolve true maxRed url (maxRed + 1) url [] [] := by
    simp [fetch_page, hv]
  have hterm := fetchLoop_terminal http resolve maxRed url maxRed url [] [] hnr
  refine ⟨?_, ?_, ?_, ?_⟩
  · intro h reason hh hpub
    rw [hfp, hterm]
    simp [finalizeResponse, hh, hpub]
  · intro h hh hpub
    rw [hfp, hterm]
    simp [finalizeResponse, hh, hpub]
  · intro hh
    rw [hfp, hterm]
    simp [finalizeResponse, hh]
  · intro purl hh
    simp [_validate_final_page_url, hh]

/-- Witness for the amended C6: a terminal response landing on a private
address is blocked with the final-URL reason. -/
theorem C6_final_url_check_witness :
    (fetch_page (fun _ => ⟨"http://10.0.0.5/p", 200, false, [], "x"⟩)
        (fun _ => Except.error "nx") "http://93.184.216.34/" true 5).1
      = errResult "http://93.184.216.34/"
          ("Blocked final URL: " ++ "Blocked non-public IP: 10.0.0.5") :=
  (C6_final_url_check (fun _ => ⟨"http://10.0.0.5/p", 200, false, [], "x"⟩)
    (fun _ => Except.error "nx") 5 "http://93.184.216.34/" (by decide) (by decide)).1
    "10.0.0.5" "Blocked non-public IP: 10.0.0.5" (by decide) (by decide)
